import Mathlib

/-!
# Verification of the firewheel-web-audio backend (`src/backend.rs`)

A shallow embedding of `WebAudioBackend` and the operations it exposes:
`start_stream`, `set_processor`, `poll_status`, `available_input_devices`,
`available_output_devices` and the `Drop` implementation, together with the
shared state they act on (the mpsc handoff channel, the `alive` atomic flag,
the leaked audio buffers and the `processor_node` cell).

Platform effects (`web_sys` context creation, worklet bootstrap, node
disconnection, context closing) are modelled by an explicit environment
`PlatformEnv` that decides the outcome of each fallible platform call.
Machine floats appear only as the zero-initialised buffer contents and the
reported sample rate; the buffers' sample values are modelled as integers
(only the zero value ever occurs in the embedded code) and the sample rate
as the natural number that results from the `as u32` truncation the code
performs on `context.sample_rate()`.

Temporal properties are stated over traces: a list of `Op`s is interpreted
by `execTrace`, which threads the combined control/render state and emits
an `Event` list recording sends, receives, polls, the teardown actions and
log lines.
-/

namespace FirewheelWebAudio

/-- The `FirewheelProcessor` handed to `set_processor` is an opaque,
engine-owned object; the backend only moves it through the channel and never
inspects it.  It is modelled as a bare identifier. -/
abbrev FirewheelProcessor := Nat

/-- Audio samples are `f32` in the source.  The backend itself only ever
writes the value `0.0` into them (`create_buffer` zero-fills), so samples are
modelled as integers; no claim depends on float arithmetic. -/
abbrev Sample := Int

/-- Constant `crate::BLOCK_FRAMES`: the compile-time block-size constant shared
between the control and the render side.
Modelled from the spec: the crate root that gives the constant its numeric
value is not under `src/`; the spec only says it is a fixed compile-time
constant, so the Web Audio render-quantum size is used.  No claim depends on
the particular value, only on it being a fixed positive constant. -/
def BLOCK_FRAMES : Nat := 128

/-- The shared state of one `std::sync::mpsc::channel()`:
the queue of sent, not yet received values (mpsc is FIFO) and whether the
receiving half still exists.  `send` fails exactly when the receiver has
been dropped. -/
structure Channel (α : Type) where
  queue : List α
  receiverAlive : Bool
deriving DecidableEq

/-- Method `Sender::send`: succeeds (appending to the queue) iff a receiver still
exists; the returned `Bool` is `is_ok()` of the `Result`. -/
def Channel.send {α : Type} (c : Channel α) (v : α) : Channel α × Bool :=
  if c.receiverAlive then ({ c with queue := c.queue ++ [v] }, true)
  else (c, false)

/-- Method `Receiver::try_recv`: pops the oldest queued value if one exists. -/
def Channel.try_recv {α : Type} (c : Channel α) : Channel α × Option α :=
  match c.queue with
  | [] => (c, none)
  | v :: rest => ({ c with queue := rest }, some v)

/-- State of the underlying `web_sys::AudioContext`. -/
inductive AudioContextState where
  | running
  | closed
deriving DecidableEq

/-- The `web_sys::AudioContext` as far as the backend observes it: the
sample rate it reports (already truncated `as u32`) and whether it has been
closed. -/
structure AudioContext where
  sample_rate : Nat
  ctxState : AudioContextState
deriving DecidableEq

/-- The `web_sys::AudioWorkletNode`; the backend only ever connects it to
the destination and later disconnects it. -/
structure AudioWorkletNode where
  connected : Bool
deriving DecidableEq

/-- The `ProcessorHost` as constructed in `start_stream` (its fields are
visible there): the not-yet-received processor slot, the channel counts and
the two leaked, zero-filled buffer regions.  The `receiver` and `alive`
handles it also holds are shared with the backend and are represented once,
in `WebAudioBackend`. -/
structure ProcessorHost where
  processor : Option FirewheelProcessor
  inputs : Nat
  input_buffers : List Sample
  outputs : Nat
  output_buffers : List Sample
deriving DecidableEq

/-- The combined stream state: the fields of `WebAudioBackend` from the
source (`processor` sender, `is_dropped`, `alive`, `web_context`,
`processor_node`) plus the render-side `ProcessorHost`, which shares the
channel's receiving half and the `alive` flag with it. -/
structure WebAudioBackend where
  processor : Channel FirewheelProcessor
  is_dropped : Bool
  alive : Bool
  web_context : AudioContext
  processor_node : Option AudioWorkletNode
  host : ProcessorHost
deriving DecidableEq

/-- Type `WebAudioStartError` from the source. -/
inductive WebAudioStartError where
  | Initialization (msg : String)
  | WorkletCreation (msg : String)
deriving DecidableEq

/-- Type `WebAudioStreamError` from the source. -/
inductive WebAudioStreamError where
  | UnexpectedDrop
deriving DecidableEq

/-- Type `WebAudioConfig`: the optional requested sample rate (`NonZeroU32` in
the source, modelled as a positive natural when present; positivity is not
needed by any claim). -/
structure WebAudioConfig where
  sample_rate : Option Nat
deriving DecidableEq

/-- Type `firewheel::StreamInfo`, restricted to the fields `start_stream` sets
explicitly (the rest come from `..Default::default()`).  `sample_rate` and
`max_block_frames` are `NonZeroU32` in the source; they are modelled as
naturals, with the `NonZeroU32::new(..).expect/unwrap` zero checks made
explicit in `start_stream`. -/
structure StreamInfo where
  sample_rate : Nat
  max_block_frames : Nat
  num_stream_in_channels : Nat
  num_stream_out_channels : Nat
  input_device_name : Option String
  output_device_name : Option String
deriving DecidableEq

/-- Type `firewheel::backend::DeviceInfo`. -/
structure DeviceInfo where
  name : String
  num_channels : Nat
  is_default : Bool
deriving DecidableEq

/-- The platform environment: outcome of each fallible `web_sys` call.
`createContext` receives the requested sample rate (if any) and yields the
context's reported sample rate (post `as u32` truncation) or a creation
error; `workletResult` is the outcome of the asynchronous module-load /
node-construction bootstrap; the two error slots decide whether
`disconnect` and `close` fail. -/
structure PlatformEnv where
  createContext : Option Nat → Except String Nat
  workletResult : Except String Unit
  disconnectError : Option String
  closeError : Option String

/-- Observable events emitted while interpreting backend operations. -/
inductive Event where
  | sent (p : FirewheelProcessor)
  | sendFailed (p : FirewheelProcessor)
  | received (p : FirewheelProcessor)
  | receivedNone
  | pollOk
  | pollErr
  | markedDead
  | disconnected
  | closedContext
  | logged (msg : String)
deriving DecidableEq

/-- Log lines are observable but carry no control-flow weight. -/
def Event.isLog : Event → Bool
  | .logged _ => true
  | _ => false

/-- Function `available_input_devices` from the source: always empty. -/
def available_input_devices : List DeviceInfo := []

/-- Function `available_output_devices` from the source: the single synthetic
default output device. -/
def available_output_devices : List DeviceInfo :=
  [{ name := "default output", num_channels := 2, is_default := true }]

/-- Function `create_buffer` from `start_stream`: an empty `Vec` extended with
`len` zeros and leaked (`Vec::leak` grants the region a `'static` lifetime;
the region is represented by the list itself, never deallocated by any
operation below). -/
def create_buffer (len : Nat) : List Sample :=
  ([] : List Sample) ++ List.replicate len (0 : Sample)

/-- Result of `start_stream`: the source can also panic, via
`NonZeroU32::new(sample_rate as u32).expect(..)` and
`NonZeroU32::new(BLOCK_FRAMES as u32).unwrap()`. -/
inductive StartResult where
  | panic (msg : String)
  | error (e : WebAudioStartError)
  | ok (backend : WebAudioBackend) (info : StreamInfo)
deriving DecidableEq

/-- Function `start_stream` from the source: create the channel, open the platform
context (two creation paths depending on whether a sample rate was
requested, both mapping errors to `Initialization`), read the reported
sample rate, allocate the zero-filled buffers, build the `ProcessorHost`,
and return the backend together with the `StreamInfo`.  The asynchronous
worklet bootstrap that `start_stream` spawns is interpreted separately by
`completeBootstrap`. -/
def start_stream (env : PlatformEnv) (config : WebAudioConfig) : StartResult :=
  match env.createContext config.sample_rate with
  | .error e => .error (.Initialization e)
  | .ok reported =>
    let inputs := 0
    let outputs := 2
    let host : ProcessorHost :=
      { processor := none
        inputs := inputs
        input_buffers := create_buffer (inputs * BLOCK_FRAMES)
        outputs := outputs
        output_buffers := create_buffer (outputs * BLOCK_FRAMES) }
    if reported = 0 then
      .panic "Web Audio API sample rate should be non-zero"
    else if BLOCK_FRAMES = 0 then
      .panic "called unwrap on None"
    else
      .ok
        { processor := { queue := [], receiverAlive := true }
          is_dropped := false
          alive := true
          web_context := { sample_rate := reported, ctxState := .running }
          processor_node := none
          host := host }
        { sample_rate := reported
          max_block_frames := BLOCK_FRAMES
          num_stream_in_channels := inputs
          num_stream_out_channels := outputs
          input_device_name := none
          output_device_name := some "default output" }

/-- Function `set_processor` from the source: send through the channel; if the send
fails (receiver gone) record the dropped condition. -/
def set_processor (st : WebAudioBackend) (p : FirewheelProcessor) :
    WebAudioBackend :=
  let (ch, isOk) := st.processor.send p
  if isOk then { st with processor := ch }
  else { st with processor := ch, is_dropped := true }

/-- Function `poll_status` from the source: errors iff the dropped condition has
been recorded; reads but never writes the state. -/
def poll_status (st : WebAudioBackend) : Except WebAudioStreamError Unit :=
  if st.is_dropped then .error .UnexpectedDrop else .ok ()

/-- Resolution of the `prepare_worklet` future spawned by `start_stream`:
on success the `AudioWorkletNode` is constructed, connected to the
destination and stored into the `processor_node` cell; on failure the error
is only logged. -/
def completeBootstrap (env : PlatformEnv) (st : WebAudioBackend) :
    WebAudioBackend × List Event :=
  match env.workletResult with
  | .ok _ => ({ st with processor_node := some { connected := true } }, [])
  | .error _ => (st, [Event.logged "failed to initialize audio worklet"])

/-- Impl `Drop for WebAudioBackend` from the source: store `false` into the
`alive` flag, disconnect the node if the bootstrap installed one (logging a
disconnect error), then close the context (logging a close error).  The
function is total: no branch fails, so teardown always completes. -/
def dropBackend (env : PlatformEnv) (st : WebAudioBackend) :
    WebAudioBackend × List Event :=
  let st1 := { st with alive := false }
  let step2 : WebAudioBackend × List Event :=
    match st1.processor_node with
    | some node =>
      match env.disconnectError with
      | none =>
        ({ st1 with processor_node := some { node with connected := false } },
          [Event.disconnected])
      | some e =>
        (st1, [Event.disconnected,
          Event.logged ("Failed to disconnect AudioWorkletNode: " ++ e)])
    | none => (st1, [])
  let step3 : WebAudioBackend × List Event :=
    match env.closeError with
    | none =>
      ({ step2.1 with
          web_context := { step2.1.web_context with ctxState := .closed } },
        [Event.closedContext])
    | some e =>
      (step2.1, [Event.closedContext,
        Event.logged ("Failed to close AudioContext: " ++ e)])
  (step3.1, Event.markedDead :: (step2.2 ++ step3.2))

/-- The render-side receive attempt, executed at the top of each worklet
callback.  Modelled from the spec (the `wasm_processor` module holding the
callback body is not under `src/`): while no processor has been received the
host calls `try_recv` on its receiving half; once one is stored the host is
`Active` and no longer receives.  No attempt happens once the receiving
half is gone. -/
def renderReceive (st : WebAudioBackend) :
    WebAudioBackend × Option FirewheelProcessor :=
  if st.processor.receiverAlive then
    match st.host.processor with
    | some _ => (st, none)
    | none =>
      match st.processor.try_recv with
      | (ch, some p) =>
        ({ st with processor := ch, host := { st.host with processor := some p } },
          some p)
      | (_, none) => (st, none)
  else (st, none)

/-- One step of the interleaved control/render trace. -/
inductive Op where
  | install (p : FirewheelProcessor)
  | tryReceive
  | pollStatus
  | bootstrap
  | dropReceiver
  | teardown
deriving DecidableEq

/-- Interpret one operation, producing the next state and the events it
emits.  `install` is `set_processor`; `tryReceive` is the render callback's
receive attempt; `pollStatus` is `poll_status`; `bootstrap` resolves the
spawned worklet future; `dropReceiver` is the platform tearing down the
render side (the receiving half of the channel disappears); `teardown` is
the backend's `Drop`. -/
def execOp (env : PlatformEnv) (st : WebAudioBackend) : Op →
    WebAudioBackend × List Event
  | .install p =>
    (set_processor st p,
      if st.processor.receiverAlive then [Event.sent p] else [Event.sendFailed p])
  | .tryReceive =>
    match renderReceive st with
    | (st', some p) => (st', [Event.received p])
    | (st', none) => (st', [Event.receivedNone])
  | .pollStatus =>
    (st, match poll_status st with
      | .ok _ => [Event.pollOk]
      | .error _ => [Event.pollErr])
  | .bootstrap => completeBootstrap env st
  | .dropReceiver =>
    ({ st with processor := { st.processor with receiverAlive := false } }, [])
  | .teardown => dropBackend env st

/-- Interpret a whole trace, concatenating the emitted events. -/
def execTrace (env : PlatformEnv) (st : WebAudioBackend) :
    List Op → WebAudioBackend × List Event
  | [] => (st, [])
  | op :: rest =>
    ((execTrace env (execOp env st op).1 rest).1,
      (execOp env st op).2 ++ (execTrace env (execOp env st op).1 rest).2)

/-- The processors installed during a trace, in order. -/
def installsOf : List Op → List FirewheelProcessor
  | [] => []
  | .install p :: rest => p :: installsOf rest
  | _ :: rest => installsOf rest

/-- The processors successfully received during a trace, in order. -/
def recvsOf : List Event → List FirewheelProcessor
  | [] => []
  | .received p :: rest => p :: recvsOf rest
  | _ :: rest => recvsOf rest

/-- Whether any send in the trace failed. -/
def hasSendFailure : List Event → Bool
  | [] => false
  | .sendFailed _ :: _ => true
  | _ :: rest => hasSendFailure rest

/-- Whether the trace contains a teardown. -/
def hasTeardown : List Op → Bool
  | [] => false
  | .teardown :: _ => true
  | _ :: rest => hasTeardown rest

/-- A platform environment in which every platform call succeeds and the
context reports 48000 Hz. -/
def env0 : PlatformEnv :=
  { createContext := fun _ => .ok 48000
    workletResult := .ok ()
    disconnectError := none
    closeError := none }

/-- An environment whose context negotiates 44100 Hz regardless of the
requested rate. -/
def env1 : PlatformEnv := { env0 with createContext := fun _ => .ok 44100 }

/-- An environment in which platform context creation fails. -/
def envInitFail : PlatformEnv :=
  { env0 with createContext := fun _ => .error "context construction failed" }

/-- An environment in which the asynchronous worklet bootstrap fails. -/
def envWorkletFail : PlatformEnv :=
  { env0 with workletResult := .error "module load failed" }

/-- An environment whose context reports a sample rate truncating to 0. -/
def envZeroRate : PlatformEnv :=
  { env0 with createContext := fun _ => .ok 0 }

/-- The configuration requesting 48000 Hz. -/
def cfg0 : WebAudioConfig := { sample_rate := some 48000 }

/-- The backend state `start_stream env0 cfg0` produces. -/
def st0 : WebAudioBackend :=
  { processor := { queue := [], receiverAlive := true }
    is_dropped := false
    alive := true
    web_context := { sample_rate := 48000, ctxState := .running }
    processor_node := none
    host :=
      { processor := none
        inputs := 0
        input_buffers := create_buffer (0 * BLOCK_FRAMES)
        outputs := 2
        output_buffers := create_buffer (2 * BLOCK_FRAMES) } }

/-- The stream info `start_stream env0 cfg0` produces. -/
def info0 : StreamInfo :=
  { sample_rate := 48000
    max_block_frames := BLOCK_FRAMES
    num_stream_in_channels := 0
    num_stream_out_channels := 2
    input_device_name := none
    output_device_name := some "default output" }

/-- State `st0` after the render side has been torn down: the receiving half of
the handoff channel is gone. -/
def stDead : WebAudioBackend :=
  { st0 with processor := { queue := [], receiverAlive := false } }

/-! ## Basic lemmas about the trace bookkeeping functions -/

theorem hasSendFailure_append (a b : List Event) :
    hasSendFailure (a ++ b) = (hasSendFailure a || hasSendFailure b) := by
  induction a with
  | nil => simp [hasSendFailure]
  | cons e rest ih => cases e <;> simp [hasSendFailure, ih]

theorem recvsOf_append (a b : List Event) :
    recvsOf (a ++ b) = recvsOf a ++ recvsOf b := by
  induction a with
  | nil => simp [recvsOf]
  | cons e rest ih => cases e <;> simp [recvsOf, ih]

/-! ## Effect of teardown on the state -/

theorem dropBackend_alive (env : PlatformEnv) (st : WebAudioBackend) :
    (dropBackend env st).1.alive = false := by
  unfold dropBackend
  cases st.processor_node <;> cases env.disconnectError <;>
    cases env.closeError <;> rfl

theorem dropBackend_is_dropped (env : PlatformEnv) (st : WebAudioBackend) :
    (dropBackend env st).1.is_dropped = st.is_dropped := by
  unfold dropBackend
  cases st.processor_node <;> cases env.disconnectError <;>
    cases env.closeError <;> rfl

theorem dropBackend_host (env : PlatformEnv) (st : WebAudioBackend) :
    (dropBackend env st).1.host = st.host := by
  unfold dropBackend
  cases st.processor_node <;> cases env.disconnectError <;>
    cases env.closeError <;> rfl

theorem dropBackend_channel (env : PlatformEnv) (st : WebAudioBackend) :
    (dropBackend env st).1.processor = st.processor := by
  unfold dropBackend
  cases st.processor_node <;> cases env.disconnectError <;>
    cases env.closeError <;> rfl

theorem dropBackend_no_recv (env : PlatformEnv) (st : WebAudioBackend) :
    recvsOf (dropBackend env st).2 = [] := by
  unfold dropBackend
  cases st.processor_node <;> cases env.disconnectError <;>
    cases env.closeError <;> rfl

theorem dropBackend_no_sendFailure (env : PlatformEnv) (st : WebAudioBackend) :
    hasSendFailure (dropBackend env st).2 = false := by
  unfold dropBackend
  cases st.processor_node <;> cases env.disconnectError <;>
    cases env.closeError <;> rfl

/-! ## Per-operation effect lemmas -/

theorem execOp_is_dropped (env : PlatformEnv) (st : WebAudioBackend) (op : Op) :
    (execOp env st op).1.is_dropped =
      (st.is_dropped || hasSendFailure (execOp env st op).2) := by
  cases op with
  | install p =>
    by_cases h : st.processor.receiverAlive <;>
      simp [execOp, set_processor, Channel.send, h, hasSendFailure]
  | tryReceive =>
    by_cases h : st.processor.receiverAlive
    · cases hp : st.host.processor with
      | some q => simp [execOp, renderReceive, h, hp, hasSendFailure]
      | none =>
        cases hq : st.processor.queue <;>
          simp [execOp, renderReceive, h, hp, Channel.try_recv, hq, hasSendFailure]
    · simp [execOp, renderReceive, h, hasSendFailure]
  | pollStatus =>
    by_cases h : st.is_dropped <;> simp [execOp, poll_status, h, hasSendFailure]
  | bootstrap =>
    cases hw : env.workletResult <;>
      simp [execOp, completeBootstrap, hw, hasSendFailure]
  | dropReceiver => simp [execOp, hasSendFailure]
  | teardown =>
    simp [execOp, dropBackend_is_dropped, dropBackend_no_sendFailure]

theorem execOp_alive (env : PlatformEnv) (st : WebAudioBackend) (op : Op) :
    (execOp env st op).1.alive =
      (if op = Op.teardown then false else st.alive) := by
  cases op with
  | install p =>
    by_cases h : st.processor.receiverAlive <;>
      simp [execOp, set_processor, Channel.send, h]
  | tryReceive =>
    by_cases h : st.processor.receiverAlive
    · cases hp : st.host.processor with
      | some q => simp [execOp, renderReceive, h, hp]
      | none =>
        cases hq : st.processor.queue <;>
          simp [execOp, renderReceive, h, hp, Channel.try_recv, hq]
    · simp [execOp, renderReceive, h]
  | pollStatus =>
    by_cases h : st.is_dropped <;> simp [execOp, poll_status, h]
  | bootstrap =>
    cases hw : env.workletResult <;> simp [execOp, completeBootstrap, hw]
  | dropReceiver => simp [execOp]
  | teardown => simp [execOp, dropBackend_alive]

theorem execOp_host_shape (env : PlatformEnv) (st : WebAudioBackend) (op : Op) :
    (execOp env st op).1.host.input_buffers = st.host.input_buffers ∧
    (execOp env st op).1.host.output_buffers = st.host.output_buffers ∧
    (execOp env st op).1.host.inputs = st.host.inputs ∧
    (execOp env st op).1.host.outputs = st.host.outputs := by
  cases op with
  | install p =>
    by_cases h : st.processor.receiverAlive <;>
      simp [execOp, set_processor, Channel.send, h]
  | tryReceive =>
    by_cases h : st.processor.receiverAlive
    · cases hp : st.host.processor with
      | some q => simp [execOp, renderReceive, h, hp]
      | none =>
        cases hq : st.processor.queue <;>
          simp [execOp, renderReceive, h, hp, Channel.try_recv, hq]
    · simp [execOp, renderReceive, h]
  | pollStatus =>
    by_cases h : st.is_dropped <;> simp [execOp, poll_status, h]
  | bootstrap =>
    cases hw : env.workletResult <;> simp [execOp, completeBootstrap, hw]
  | dropReceiver => simp [execOp]
  | teardown => simp [execOp, dropBackend_host]

/-! ## Trace-level characterizations -/

theorem execTrace_is_dropped (env : PlatformEnv) (ops : List Op) :
    ∀ st : WebAudioBackend, (execTrace env st ops).1.is_dropped =
      (st.is_dropped || hasSendFailure (execTrace env st ops).2) := by
  induction ops with
  | nil => intro st; simp [execTrace, hasSendFailure]
  | cons op rest ih =>
    intro st
    simp only [execTrace]
    rw [hasSendFailure_append, ih, execOp_is_dropped, Bool.or_assoc]

theorem execTrace_alive (env : PlatformEnv) (ops : List Op) :
    ∀ st : WebAudioBackend, (execTrace env st ops).1.alive =
      (st.alive && !hasTeardown ops) := by
  induction ops with
  | nil => intro st; simp [execTrace, hasTeardown]
  | cons op rest ih =>
    intro st
    simp only [execTrace]
    rw [ih, execOp_alive]
    by_cases h : op = Op.teardown
    · subst h; simp [hasTeardown]
    · cases op <;> simp_all [hasTeardown]

theorem execTrace_host_shape (env : PlatformEnv) (ops : List Op) :
    ∀ st : WebAudioBackend,
    (execTrace env st ops).1.host.input_buffers = st.host.input_buffers ∧
    (execTrace env st ops).1.host.output_buffers = st.host.output_buffers ∧
    (execTrace env st ops).1.host.inputs = st.host.inputs ∧
    (execTrace env st ops).1.host.outputs = st.host.outputs := by
  induction ops with
  | nil => intro st; simp [execTrace]
  | cons op rest ih =>
    intro st
    simp only [execTrace]
    obtain ⟨h1, h2, h3, h4⟩ := ih (execOp env st op).1
    obtain ⟨g1, g2, g3, g4⟩ := execOp_host_shape env st op
    exact ⟨h1.trans g1, h2.trans g2, h3.trans g3, h4.trans g4⟩

/-! ## Receive-side lemmas -/

theorem execOp_active (env : PlatformEnv) (st : WebAudioBackend) (op : Op)
    (q : FirewheelProcessor) (h : st.host.processor = some q) :
    (execOp env st op).1.host.processor = some q ∧
    recvsOf (execOp env st op).2 = [] := by
  cases op with
  | install p =>
    by_cases hr : st.processor.receiverAlive <;>
      simp [execOp, set_processor, Channel.send, hr, h, recvsOf]
  | tryReceive =>
    by_cases hr : st.processor.receiverAlive <;>
      simp [execOp, renderReceive, hr, h, recvsOf]
  | pollStatus =>
    by_cases hd : st.is_dropped <;> simp [execOp, poll_status, hd, h, recvsOf]
  | bootstrap =>
    cases hw : env.workletResult <;>
      simp [execOp, completeBootstrap, hw, h, recvsOf]
  | dropReceiver => simp [execOp, h, recvsOf]
  | teardown => simp [execOp, dropBackend_host, dropBackend_no_recv, h]

theorem execTrace_recvs_active (env : PlatformEnv) (ops : List Op) :
    ∀ (st : WebAudioBackend) (q : FirewheelProcessor),
      st.host.processor = some q →
      recvsOf (execTrace env st ops).2 = [] := by
  induction ops with
  | nil => intro st q _; simp [execTrace, recvsOf]
  | cons op rest ih =>
    intro st q h
    simp only [execTrace]
    obtain ⟨h1, h2⟩ := execOp_active env st op q h
    rw [recvsOf_append, h2, ih (execOp env st op).1 q h1]
    rfl

theorem execTrace_recvs_le_one (env : PlatformEnv) (ops : List Op) :
    ∀ st : WebAudioBackend, st.host.processor = none →
      (recvsOf (execTrace env st ops).2).length ≤ 1 := by
  induction ops with
  | nil => intro st _; simp [execTrace, recvsOf]
  | cons op rest ih =>
    intro st h
    simp only [execTrace, recvsOf_append, List.length_append]
    cases op with
    | install p =>
      by_cases hr : st.processor.receiverAlive <;>
      · have := ih (execOp env st (.install p)).1
        simp_all [execOp, set_processor, Channel.send, hr, recvsOf]
    | tryReceive =>
      by_cases hr : st.processor.receiverAlive
      · cases hq : st.processor.queue with
        | nil =>
          have := ih (execOp env st .tryReceive).1
          simp_all [execOp, renderReceive, hr, h, Channel.try_recv, hq, recvsOf]
        | cons p ps =>
          have hact := execTrace_recvs_active env rest
            (execOp env st .tryReceive).1 p
            (by simp [execOp, renderReceive, hr, h, Channel.try_recv, hq])
          simp_all [execOp, renderReceive, hr, h, Channel.try_recv, hq, recvsOf]
      · have := ih (execOp env st .tryReceive).1
        simp_all [execOp, renderReceive, hr, recvsOf]
    | pollStatus =>
      by_cases hd : st.is_dropped <;>
      · have := ih (execOp env st .pollStatus).1
        simp_all [execOp, poll_status, hd, recvsOf]
    | bootstrap =>
      cases hw : env.workletResult <;>
      · have := ih (execOp env st .bootstrap).1
        simp_all [execOp, completeBootstrap, hw, recvsOf]
    | dropReceiver =>
      have := ih (execOp env st .dropReceiver).1
      simp_all [execOp, recvsOf]
    | teardown =>
      have e1 : execOp env st .teardown = dropBackend env st := rfl
      rw [e1, dropBackend_no_recv]
      simpa [recvsOf] using
        ih (dropBackend env st).1 (by rw [dropBackend_host]; exact h)

theorem execTrace_recvs_mem (env : PlatformEnv) (ops : List Op) :
    ∀ (st : WebAudioBackend) (q : FirewheelProcessor),
      q ∈ recvsOf (execTrace env st ops).2 →
      q ∈ st.processor.queue ∨ q ∈ installsOf ops := by
  induction ops with
  | nil => intro st q hq; simp [execTrace, recvsOf] at hq
  | cons op rest ih =>
    intro st q hq
    simp only [execTrace, recvsOf_append, List.mem_append] at hq
    cases op with
    | install p =>
      by_cases hr : st.processor.receiverAlive
      · rcases hq with hq | hq
        · simp [execOp, set_processor, Channel.send, hr, recvsOf] at hq
        · rcases ih _ q hq with hmem | hmem
          · simp [execOp, set_processor, Channel.send, hr] at hmem
            rcases hmem with hmem | hmem
            · exact Or.inl hmem
            · subst hmem; exact Or.inr (by simp [installsOf])
          · exact Or.inr (by simp [installsOf, hmem])
      · rcases hq with hq | hq
        · simp [execOp, set_processor, Channel.send, hr, recvsOf] at hq
        · rcases ih _ q hq with hmem | hmem
          · simp [execOp, set_processor, Channel.send, hr] at hmem
            exact Or.inl hmem
          · exact Or.inr (by simp [installsOf, hmem])
    | tryReceive =>
      by_cases hr : st.processor.receiverAlive
      · cases hp : st.host.processor with
        | some r =>
          rcases hq with hq | hq
          · simp [execOp, renderReceive, hr, hp, recvsOf] at hq
          · rcases ih _ q hq with hmem | hmem
            · simp [execOp, renderReceive, hr, hp] at hmem
              exact Or.inl hmem
            · exact Or.inr (by simp [installsOf, hmem])
        | none =>
          cases hqu : st.processor.queue with
          | nil =>
            rcases hq with hq | hq
            · simp [execOp, renderReceive, hr, hp, Channel.try_recv, hqu,
                recvsOf] at hq
            · rcases ih _ q hq with hmem | hmem
              · simp [execOp, renderReceive, hr, hp, Channel.try_recv, hqu]
                  at hmem
              · exact Or.inr (by simp [installsOf, hmem])
          | cons p ps =>
            rcases hq with hq | hq
            · simp [execOp, renderReceive, hr, hp, Channel.try_recv, hqu,
                recvsOf] at hq
              subst hq
              exact Or.inl (by simp)
            · rcases ih _ q hq with hmem | hmem
              · simp [execOp, renderReceive, hr, hp, Channel.try_recv, hqu]
                  at hmem
                exact Or.inl (List.mem_cons_of_mem p hmem)
              · exact Or.inr (by simp [installsOf, hmem])
      · rcases hq with hq | hq
        · simp [execOp, renderReceive, hr, recvsOf] at hq
        · rcases ih _ q hq with hmem | hmem
          · simp [execOp, renderReceive, hr] at hmem
            exact Or.inl hmem
          · exact Or.inr (by simp [installsOf, hmem])
    | pollStatus =>
      rcases hq with hq | hq
      · by_cases hd : st.is_dropped <;>
          simp [execOp, poll_status, hd, recvsOf] at hq
      · rcases ih _ q hq with hmem | hmem
        · exact Or.inl hmem
        · exact Or.inr (by simp [installsOf, hmem])
    | bootstrap =>
      cases hw : env.workletResult with
      | ok u =>
        rcases hq with hq | hq
        · simp [execOp, completeBootstrap, hw, recvsOf] at hq
        · rcases ih _ q hq with hmem | hmem
          · simp [execOp, completeBootstrap, hw] at hmem
            exact Or.inl hmem
          · exact Or.inr (by simp [installsOf, hmem])
      | error e =>
        rcases hq with hq | hq
        · simp [execOp, completeBootstrap, hw, recvsOf] at hq
        · rcases ih _ q hq with hmem | hmem
          · simp [execOp, completeBootstrap, hw] at hmem
            exact Or.inl hmem
          · exact Or.inr (by simp [installsOf, hmem])
    | dropReceiver =>
      rcases hq with hq | hq
      · simp [execOp, recvsOf] at hq
      · rcases ih _ q hq with hmem | hmem
        · exact Or.inl hmem
        · exact Or.inr (by simp [installsOf, hmem])
    | teardown =>
      have e1 : execOp env st .teardown = dropBackend env st := rfl
      rw [e1] at hq
      rcases hq with hq | hq
      · rw [dropBackend_no_recv] at hq
        simp at hq
      · rcases ih _ q hq with hmem | hmem
        · rw [dropBackend_channel] at hmem
          exact Or.inl hmem
        · exact Or.inr (by simp [installsOf, hmem])

/-! ## Inversion of a successful `start_stream` -/

theorem start_stream_ok_inv (env : PlatformEnv) (cfg : WebAudioConfig)
    (st : WebAudioBackend) (info : StreamInfo)
    (h : start_stream env cfg = .ok st info) :
    ∃ reported, env.createContext cfg.sample_rate = Except.ok reported ∧
      reported ≠ 0 ∧
      st = { processor := { queue := [], receiverAlive := true }
             is_dropped := false
             alive := true
             web_context := { sample_rate := reported, ctxState := .running }
             processor_node := none
             host :=
               { processor := none
                 inputs := 0
                 input_buffers := create_buffer (0 * BLOCK_FRAMES)
                 outputs := 2
                 output_buffers := create_buffer (2 * BLOCK_FRAMES) } } ∧
      info = { sample_rate := reported
               max_block_frames := BLOCK_FRAMES
               num_stream_in_channels := 0
               num_stream_out_channels := 2
               input_device_name := none
               output_device_name := some "default output" } := by
  unfold start_stream at h
  cases hc : env.createContext cfg.sample_rate with
  | error e => rw [hc] at h; simp at h
  | ok reported =>
    rw [hc] at h
    by_cases h0 : reported = 0
    · simp [h0, BLOCK_FRAMES] at h
    · simp [h0, BLOCK_FRAMES] at h
      exact ⟨reported, rfl, h0, h.1.symm, h.2.symm⟩

/-! ## Claim theorems -/

/-- C1: if `set_processor` is called while the handoff channel's receiver is
gone, the backend records the dropped condition and every subsequent
`poll_status` (after any further operations) returns
`WebAudioStreamError.UnexpectedDrop`; a freshly started backend has the
condition clear, and on every backend on which no send has failed
`poll_status` returns success. -/
theorem C1_dropped_condition_poll :
    (∀ (env : PlatformEnv) (st : WebAudioBackend) (p : FirewheelProcessor)
      (ops : List Op), st.processor.receiverAlive = false →
      (set_processor st p).is_dropped = true ∧
      poll_status (execTrace env (set_processor st p) ops).1 =
        .error .UnexpectedDrop) ∧
    (∀ (env : PlatformEnv) (cfg : WebAudioConfig) (st : WebAudioBackend)
      (info : StreamInfo), start_stream env cfg = .ok st info →
      st.is_dropped = false) ∧
    (∀ (env : PlatformEnv) (st : WebAudioBackend) (ops : List Op),
      st.is_dropped = false →
      hasSendFailure (execTrace env st ops).2 = false →
      poll_status (execTrace env st ops).1 = .ok ()) := by
  refine ⟨?_, ?_, ?_⟩
  · intro env st p ops h
    have hdrop : (set_processor st p).is_dropped = true := by
      simp [set_processor, Channel.send, h]
    refine ⟨hdrop, ?_⟩
    have := execTrace_is_dropped env ops (set_processor st p)
    rw [hdrop] at this
    simp only [Bool.true_or] at this
    simp [poll_status, this]
  · intro env cfg st info h
    obtain ⟨reported, _, _, hst, _⟩ := start_stream_ok_inv env cfg st info h
    rw [hst]
  · intro env st ops h hs
    have := execTrace_is_dropped env ops st
    rw [h, hs] at this
    simp only [Bool.false_or] at this
    simp [poll_status, this]

/-- Witness for C1: the dropped-receiver scenario at a concrete state, and
the clean-trace scenario on the freshly started backend. -/
theorem C1_dropped_condition_poll_witness :
    (stDead.processor.receiverAlive = false ∧
      poll_status (execTrace env0 (set_processor stDead 7) [Op.pollStatus]).1 =
        .error .UnexpectedDrop) ∧
    (start_stream env0 cfg0 = .ok st0 info0 ∧ st0.is_dropped = false) ∧
    poll_status (execTrace env0 st0 [Op.install 5, Op.pollStatus]).1 =
      .ok () := by
  refine ⟨⟨rfl, ?_⟩, ⟨rfl, ?_⟩, ?_⟩
  · exact (C1_dropped_condition_poll.1 env0 stDead 7 [Op.pollStatus] rfl).2
  · exact C1_dropped_condition_poll.2.1 env0 cfg0 st0 info0 rfl
  · exact C1_dropped_condition_poll.2.2 env0 st0
      [Op.install 5, Op.pollStatus] rfl rfl

/-- C2: the handoff is single-use — over a stream's lifetime in which at
most one processor is installed (a single `install p` in the trace, as the
design prescribes), the render side observes a processor at most once, and
any successful `try_receive` returns exactly the installed processor (in
particular the first successful one after the install does). -/
theorem C2_single_use_at_most_once :
    ∀ (env : PlatformEnv) (cfg : WebAudioConfig) (st : WebAudioBackend)
      (info : StreamInfo) (ops : List Op) (p : FirewheelProcessor),
      start_stream env cfg = .ok st info →
      installsOf ops = [p] →
      (recvsOf (execTrace env st ops).2).length ≤ 1 ∧
      ∀ q ∈ recvsOf (execTrace env st ops).2, q = p := by
  intro env cfg st info ops p h hops
  obtain ⟨reported, _, _, hst, _⟩ := start_stream_ok_inv env cfg st info h
  constructor
  · exact execTrace_recvs_le_one env ops st (by rw [hst])
  · intro q hq
    rcases execTrace_recvs_mem env ops st q hq with hmem | hmem
    · rw [hst] at hmem
      simp at hmem
    · rw [hops] at hmem
      simpa using hmem

/-- Witness for C2: one install followed by two receive attempts on the
freshly started stream delivers the processor exactly once. -/
theorem C2_single_use_at_most_once_witness :
    (start_stream env0 cfg0 = .ok st0 info0 ∧
      installsOf [Op.install 3, Op.tryReceive, Op.tryReceive] = [3]) ∧
    (recvsOf (execTrace env0 st0
        [Op.install 3, Op.tryReceive, Op.tryReceive]).2).length ≤ 1 ∧
    ∀ q ∈ recvsOf (execTrace env0 st0
        [Op.install 3, Op.tryReceive, Op.tryReceive]).2, q = 3 := by
  refine ⟨⟨rfl, rfl⟩, ?_⟩
  exact C2_single_use_at_most_once env0 cfg0 st0 info0
    [Op.install 3, Op.tryReceive, Op.tryReceive] 3 rfl rfl

/-- C3: teardown performs, in order, the liveness store, the node
disconnect (exactly when a node was installed), then the context close; the
non-log actions it performs are the same for every platform environment, so
disconnect or close errors only add log lines and teardown always completes
with the flag dead. -/
theorem C3_teardown_order :
    ∀ (env : PlatformEnv) (st : WebAudioBackend),
      (dropBackend env st).1.alive = false ∧
      (dropBackend env st).2.filter (fun e => !e.isLog) =
        [Event.markedDead] ++
          (if st.processor_node.isSome then [Event.disconnected] else []) ++
          [Event.closedContext] := by
  intro env st
  refine ⟨dropBackend_alive env st, ?_⟩
  unfold dropBackend
  cases st.processor_node <;> cases env.disconnectError <;>
    cases env.closeError <;> simp [Event.isLog]

/-- C4: the liveness flag is true at stream construction, the only write
any operation performs is the `false` store at teardown (over any trace the
flag's value is exactly "initially alive and no teardown occurred"), and
once false it never returns to true. -/
theorem C4_liveness_monotonic :
    (∀ (env : PlatformEnv) (cfg : WebAudioConfig) (st : WebAudioBackend)
      (info : StreamInfo), start_stream env cfg = .ok st info →
      st.alive = true) ∧
    (∀ (env : PlatformEnv) (st : WebAudioBackend) (ops : List Op),
      (execTrace env st ops).1.alive = (st.alive && !hasTeardown ops)) ∧
    (∀ (env : PlatformEnv) (st : WebAudioBackend) (ops : List Op),
      st.alive = false → (execTrace env st ops).1.alive = false) := by
  refine ⟨?_, ?_, ?_⟩
  · intro env cfg st info h
    obtain ⟨reported, _, _, hst, _⟩ := start_stream_ok_inv env cfg st info h
    rw [hst]
  · intro env st ops
    exact execTrace_alive env ops st
  · intro env st ops h
    rw [execTrace_alive env ops st, h]
    rfl

/-- Witness for C4: the fresh backend is alive, a teardown kills the flag,
and no later operation revives it. -/
theorem C4_liveness_monotonic_witness :
    (start_stream env0 cfg0 = .ok st0 info0 ∧ st0.alive = true) ∧
    (execTrace env0 st0 [Op.teardown]).1.alive = false ∧
    (execTrace env0 (execTrace env0 st0 [Op.teardown]).1
      [Op.install 4, Op.pollStatus, Op.bootstrap]).1.alive = false := by
  refine ⟨⟨rfl, ?_⟩, ?_, ?_⟩
  · exact C4_liveness_monotonic.1 env0 cfg0 st0 info0 rfl
  · rw [C4_liveness_monotonic.2.1 env0 st0 [Op.teardown]]
    rfl
  · exact C4_liveness_monotonic.2.2 env0 (execTrace env0 st0 [Op.teardown]).1
      [Op.install 4, Op.pollStatus, Op.bootstrap] (by rfl)

/-- C5: whenever the platform context opens (reporting a nonzero rate),
`start_stream` succeeds and the returned `StreamInfo` carries the
platform-reported sample rate (not the requested one), `BLOCK_FRAMES` as
the maximum block size, and the fixed 0-input/2-output channel counts. -/
theorem C5_stream_info_fields :
    ∀ (env : PlatformEnv) (cfg : WebAudioConfig) (r : Nat),
      env.createContext cfg.sample_rate = .ok r → r ≠ 0 →
      ∃ st info, start_stream env cfg = .ok st info ∧
        info.sample_rate = r ∧
        info.max_block_frames = BLOCK_FRAMES ∧
        info.num_stream_in_channels = 0 ∧
        info.num_stream_out_channels = 2 := by
  intro env cfg r h hr
  refine ⟨{ processor := { queue := [], receiverAlive := true }
            is_dropped := false
            alive := true
            web_context := { sample_rate := r, ctxState := .running }
            processor_node := none
            host :=
              { processor := none
                inputs := 0
                input_buffers := create_buffer (0 * BLOCK_FRAMES)
                outputs := 2
                output_buffers := create_buffer (2 * BLOCK_FRAMES) } },
          { sample_rate := r
            max_block_frames := BLOCK_FRAMES
            num_stream_in_channels := 0
            num_stream_out_channels := 2
            input_device_name := none
            output_device_name := some "default output" },
          ?_, rfl, rfl, rfl, rfl⟩
  unfold start_stream
  rw [h]
  simp [hr, BLOCK_FRAMES]

/-- Witness for C5: with a platform negotiating 44100 Hz against a
the 48000-requesting config, the returned info carries the
platform-reported 44100, not the requested 48000. -/
theorem C5_stream_info_fields_witness :
    (env1.createContext cfg0.sample_rate = .ok 44100 ∧ 44100 ≠ 0) ∧
    ∃ st info, start_stream env1 cfg0 = .ok st info ∧
      info.sample_rate = 44100 ∧
      info.max_block_frames = BLOCK_FRAMES ∧
      info.num_stream_in_channels = 0 ∧
      info.num_stream_out_channels = 2 := by
  refine ⟨⟨rfl, by decide⟩, ?_⟩
  exact C5_stream_info_fields env1 cfg0 44100 rfl (by decide)

/-- C6: `start_stream` returns `Initialization` exactly when platform
context creation fails (no backend is created), never `WorkletCreation`;
an asynchronous bootstrap failure is reported by a log line only, after the
synchronous call already succeeded, leaving the backend state untouched. -/
theorem C6_error_taxonomy :
    (∀ (env : PlatformEnv) (cfg : WebAudioConfig) (m : String),
      env.createContext cfg.sample_rate = .error m →
      start_stream env cfg = .error (.Initialization m)) ∧
    (∀ (env : PlatformEnv) (cfg : WebAudioConfig) (e : WebAudioStartError),
      start_stream env cfg = .error e →
      ∃ m, e = .Initialization m ∧
        env.createContext cfg.sample_rate = .error m) ∧
    (∀ (env : PlatformEnv) (cfg : WebAudioConfig) (m : String),
      start_stream env cfg ≠ .error (.WorkletCreation m)) ∧
    (∀ (env : PlatformEnv) (st : WebAudioBackend) (m : String),
      env.workletResult = .error m →
      completeBootstrap env st =
        (st, [Event.logged "failed to initialize audio worklet"])) := by
  have hinv : ∀ (env : PlatformEnv) (cfg : WebAudioConfig)
      (e : WebAudioStartError), start_stream env cfg = .error e →
      ∃ m, e = .Initialization m ∧
        env.createContext cfg.sample_rate = .error m := by
    intro env cfg e h
    unfold start_stream at h
    cases hc : env.createContext cfg.sample_rate with
    | error m =>
      rw [hc] at h
      simp at h
      exact ⟨m, h.symm, rfl⟩
    | ok reported =>
      rw [hc] at h
      by_cases h0 : reported = 0 <;> simp [h0, BLOCK_FRAMES] at h
  refine ⟨?_, hinv, ?_, ?_⟩
  · intro env cfg m h
    unfold start_stream
    rw [h]
  · intro env cfg m h
    obtain ⟨m', hm, _⟩ := hinv env cfg _ h
    simp at hm
  · intro env st m h
    unfold completeBootstrap
    rw [h]

/-- Witness for C6: a failing context creation surfaces synchronously as
`Initialization`, and a failing bootstrap on the running backend only
logs. -/
theorem C6_error_taxonomy_witness :
    (envInitFail.createContext cfg0.sample_rate =
        .error "context construction failed" ∧
      start_stream envInitFail cfg0 =
        .error (.Initialization "context construction failed")) ∧
    (envWorkletFail.workletResult = .error "module load failed" ∧
      completeBootstrap envWorkletFail st0 =
        (st0, [Event.logged "failed to initialize audio worklet"])) := by
  refine ⟨⟨rfl, ?_⟩, ⟨rfl, ?_⟩⟩
  · exact C6_error_taxonomy.1 envInitFail cfg0 "context construction failed" rfl
  · exact C6_error_taxonomy.2.2.2 envWorkletFail st0 "module load failed" rfl

/-- C7: at stream start the two buffer regions are exactly
`channels × BLOCK_FRAMES` zero-filled samples (`0 × BLOCK_FRAMES` input,
`2 × BLOCK_FRAMES` output), and no backend operation — teardown included —
ever resizes or frees them. -/
theorem C7_buffer_pool :
    ∀ (env : PlatformEnv) (cfg : WebAudioConfig) (st : WebAudioBackend)
      (info : StreamInfo), start_stream env cfg = .ok st info →
      st.host.inputs = 0 ∧ st.host.outputs = 2 ∧
      st.host.input_buffers = create_buffer (st.host.inputs * BLOCK_FRAMES) ∧
      st.host.output_buffers =
        create_buffer (st.host.outputs * BLOCK_FRAMES) ∧
      st.host.input_buffers.length = 0 * BLOCK_FRAMES ∧
      st.host.output_buffers.length = 2 * BLOCK_FRAMES ∧
      (∀ x ∈ st.host.input_buffers, x = 0) ∧
      (∀ x ∈ st.host.output_buffers, x = 0) ∧
      (∀ (env2 : PlatformEnv) (ops : List Op),
        (execTrace env2 st ops).1.host.input_buffers.length =
          0 * BLOCK_FRAMES ∧
        (execTrace env2 st ops).1.host.output_buffers.length =
          2 * BLOCK_FRAMES) := by
  intro env cfg st info h
  obtain ⟨reported, _, _, hst, _⟩ := start_stream_ok_inv env cfg st info h
  have hin : st.host.input_buffers.length = 0 * BLOCK_FRAMES := by
    rw [hst]; simp [create_buffer]
  have hout : st.host.output_buffers.length = 2 * BLOCK_FRAMES := by
    rw [hst]; simp [create_buffer]
  refine ⟨by rw [hst], by rw [hst], by rw [hst], by rw [hst], hin, hout,
    ?_, ?_, ?_⟩
  · intro x hx
    rw [hst] at hx
    simp [create_buffer] at hx
  · intro x hx
    rw [hst] at hx
    simp [create_buffer] at hx
    exact hx.2
  · intro env2 ops
    obtain ⟨g1, g2, _, _⟩ := execTrace_host_shape env2 ops st
    exact ⟨by rw [g1, hin], by rw [g2, hout]⟩

/-- Witness for C7: the concrete started stream has a 0-sample input
region and a `2 × BLOCK_FRAMES`-sample output region, preserved across a
receive and a teardown. -/
theorem C7_buffer_pool_witness :
    start_stream env0 cfg0 = .ok st0 info0 ∧
    st0.host.output_buffers.length = 2 * BLOCK_FRAMES ∧
    st0.host.input_buffers.length = 0 * BLOCK_FRAMES ∧
    (execTrace env0 st0
      [Op.tryReceive, Op.teardown]).1.host.output_buffers.length =
        2 * BLOCK_FRAMES := by
  obtain ⟨_, _, _, _, h5, h6, _, _, h9⟩ :=
    C7_buffer_pool env0 cfg0 st0 info0 rfl
  exact ⟨rfl, h6, h5, (h9 env0 [Op.tryReceive, Op.teardown]).2⟩

/-- C8: teardown is unconditionally safe: even when the asynchronous
bootstrap never completed (`processor_node` still holds `none`) and no
processor was ever installed, releasing performs the dead store and exactly
one close, attempts no disconnect, and a second release still completes
the same way (no panic, no double effect beyond a logged close error). -/
theorem C8_teardown_unconditionally_safe :
    ∀ (env : PlatformEnv) (st : WebAudioBackend),
      st.processor_node = none → st.host.processor = none →
      (dropBackend env st).1.alive = false ∧
      (dropBackend env st).2.filter (fun e => !e.isLog) =
        [Event.markedDead, Event.closedContext] ∧
      Event.disconnected ∉ (dropBackend env st).2 ∧
      (dropBackend env (dropBackend env st).1).1.alive = false ∧
      (dropBackend env (dropBackend env st).1).2.filter (fun e => !e.isLog) =
        [Event.markedDead, Event.closedContext] := by
  intro env st hn hp
  have hn' : (dropBackend env st).1.processor_node = none := by
    unfold dropBackend
    rw [hn]
    cases env.closeError <;> rfl
  have hfilter : ∀ st2 : WebAudioBackend, st2.processor_node = none →
      (dropBackend env st2).2.filter (fun e => !e.isLog) =
        [Event.markedDead, Event.closedContext] := by
    intro st2 h2
    unfold dropBackend
    rw [h2]
    cases env.closeError <;> simp [Event.isLog]
  have hmem : Event.disconnected ∉ (dropBackend env st).2 := by
    unfold dropBackend
    rw [hn]
    cases env.closeError <;> simp
  exact ⟨dropBackend_alive env st, hfilter st hn, hmem,
    dropBackend_alive env (dropBackend env st).1, hfilter _ hn'⟩

/-- Witness for C8: releasing the freshly started backend (bootstrap not
yet resolved, processor never installed) twice. -/
theorem C8_teardown_unconditionally_safe_witness :
    (st0.processor_node = none ∧ st0.host.processor = none) ∧
    (dropBackend env0 st0).1.alive = false ∧
    (dropBackend env0 st0).2.filter (fun e => !e.isLog) =
      [Event.markedDead, Event.closedContext] ∧
    Event.disconnected ∉ (dropBackend env0 st0).2 ∧
    (dropBackend env0 (dropBackend env0 st0).1).1.alive = false := by
  obtain ⟨h1, h2, h3, h4, _⟩ :=
    C8_teardown_unconditionally_safe env0 st0 rfl rfl
  exact ⟨⟨rfl, rfl⟩, h1, h2, h3, h4⟩

/-- C9: device enumeration is the static description — no input devices,
and exactly one synthetic default output device named "default output"
with two channels. -/
theorem C9_device_enumeration :
    available_input_devices = [] ∧
    available_output_devices =
      [{ name := "default output", num_channels := 2, is_default := true }] ∧
    available_output_devices.length = 1 :=
  ⟨rfl, rfl, rfl⟩

/-- C10: if the context opens but reports a sample rate truncating to 0,
`start_stream` panics on the `NonZeroU32::new(..).expect(..)`; a reported
rate of at least 1 rules the panic out. -/
theorem C10_zero_rate_panic :
    (∀ (env : PlatformEnv) (cfg : WebAudioConfig),
      env.createContext cfg.sample_rate = .ok 0 →
      start_stream env cfg =
        .panic "Web Audio API sample rate should be non-zero") ∧
    (∀ (env : PlatformEnv) (cfg : WebAudioConfig) (r : Nat),
      env.createContext cfg.sample_rate = .ok r → 1 ≤ r →
      ∀ m, start_stream env cfg ≠ .panic m) := by
  constructor
  · intro env cfg h
    unfold start_stream
    rw [h]
    rfl
  · intro env cfg r h hr m
    unfold start_stream
    rw [h]
    have h0 : ¬ (r = 0) := by omega
    simp [h0, BLOCK_FRAMES]

/-- Witness for C10: a platform reporting rate 0 panics `start_stream`;
the 48000 Hz platform does not. -/
theorem C10_zero_rate_panic_witness :
    (envZeroRate.createContext cfg0.sample_rate = .ok 0 ∧
      start_stream envZeroRate cfg0 =
        .panic "Web Audio API sample rate should be non-zero") ∧
    (env0.createContext cfg0.sample_rate = .ok 48000 ∧ 1 ≤ 48000 ∧
      start_stream env0 cfg0 ≠ .panic "any message") := by
  refine ⟨⟨rfl, ?_⟩, rfl, by decide, ?_⟩
  · exact C10_zero_rate_panic.1 envZeroRate cfg0 rfl
  · exact C10_zero_rate_panic.2 env0 cfg0 48000 rfl (by decide) "any message"

end FirewheelWebAudio
